import Mathlib

/-!
Verification of the capture-scheduling and mode-arbitration core of the
`timelapse.py` camera controller (repository `raspi-timelapse`).

The embedding models:
* `DT` — python `datetime` values at second granularity (calendar day plus
  second-of-day), enough for the scheduler's `replace`/`timedelta` arithmetic;
* `get_sun_times` — the window computation of `TimelapseCamera.get_sun_times`
  (timestamps and hour offsets as rationals, in seconds);
* `Sys` — the mutable controller state relevant to the claims:
  `capturing_enabled`, `preview_mode`, the persisted `service_state.json`
  file, `last_capture_time`/`last_capture_path`, and the non-reentrant
  `preview_lock` (`threading.Lock`).  An operation that blocks forever on the
  lock (the same thread acquiring it twice) is modelled as returning `none`;
* the operations `load_service_state`, `save_service_state`, `start_preview`,
  `stop_preview`, `take_photo`, `start_capture` / `stop_capture` and the
  `/capture/start` HTTP route;
* `schedDecision` — the per-iteration decision of
  `TimelapseCamera._run_normal_mode` (which branch fires and which value is
  passed to `time.sleep`), and `runNormalLoop` — the `while True: try/except`
  structure of that loop;
* `publish_state` — `HomeAssistantMQTT.publish_state` with the message-bus
  publish call abstracted as a fallible function parameter.
-/

namespace Timelapse

/-- Python `datetime` at second granularity: a calendar day index and the
second of that day (`sod`).  `timedelta(days=1)` adds one to `day`;
`replace(hour=h, minute=m, second=0, microsecond=0)` rebuilds `sod`. -/
structure DT where
  day : Int
  sod : Int
deriving DecidableEq, Repr

/-- Absolute timestamp in seconds, used for datetime comparison and
subtraction (`(a - b).total_seconds()` is `a.toSeconds - b.toSeconds`). -/
def DT.toSeconds (t : DT) : Int := t.day * 86400 + t.sod

/-- A well-formed datetime has its second-of-day in `[0, 86400)`. -/
def DT.wf (t : DT) : Prop := 0 ≤ t.sod ∧ t.sod < 86400

/-- The `hour` attribute of a datetime. -/
def DT.hour (t : DT) : Int := t.sod / 3600

/-- The `minute` attribute of a datetime. -/
def DT.minute (t : DT) : Int := (t.sod % 3600) / 60

/-- The `second` attribute of a datetime. -/
def DT.second (t : DT) : Int := t.sod % 60

/-- `t + timedelta(days=n)`. -/
def DT.addDays (t : DT) (n : Int) : DT := ⟨t.day + n, t.sod⟩

/-- `t.replace(hour=h, minute=m, second=0, microsecond=0)`. -/
def DT.replaceHM (t : DT) (h m : Int) : DT := ⟨t.day, h * 3600 + m * 60⟩

/-- `TimelapseCamera.get_sun_times`: the astral library yields `sunrise` and
`sunset` instants (modelled as rational timestamps in seconds); the window is
`(sunrise - timedelta(hours=hours_before_sunrise),
  sunset + timedelta(hours=hours_after_sunset))`. -/
def get_sun_times (sunrise sunset hoursBeforeSunrise hoursAfterSunset : ℚ) : ℚ × ℚ :=
  (sunrise - hoursBeforeSunrise * 3600, sunset + hoursAfterSunset * 3600)

/-- Controller state tracked by the claims.  `file` models
`service_state.json`: `none` when the file does not exist, `some none` when
it exists without a `capturing_enabled` key, `some (some b)` when the key is
present.  `lock` is the non-reentrant `threading.Lock` named
`preview_lock`. -/
structure Sys where
  capturing_enabled : Bool
  preview_mode : Bool
  file : Option (Option Bool)
  last_capture_time : Option Int
  last_capture_path : Option String
  lock : Bool
deriving DecidableEq, Repr

/-- `TimelapseCamera.save_service_state`: writes the current
`capturing_enabled` value to `service_state.json`. -/
def save_service_state (s : Sys) : Sys :=
  { s with file := some (some s.capturing_enabled) }

/-- `TimelapseCamera.load_service_state`: if the file exists, read
`capturing_enabled` with `state.get('capturing_enabled', True)`; otherwise
call `save_service_state` (writing the current in-memory value). -/
def load_service_state (s : Sys) : Sys :=
  match s.file with
  | some stored => { s with capturing_enabled := stored.getD true }
  | none => save_service_state s

/-- `TimelapseCamera.__init__` state initialisation: `capturing_enabled`
defaults to `True`, `preview_mode` to `False`, then `load_service_state`
runs against the given on-disk file. -/
def startupState (f : Option (Option Bool)) : Sys :=
  load_service_state
    { capturing_enabled := true, preview_mode := false, file := f
      last_capture_time := none, last_capture_path := none, lock := false }

/-- The `--web`-only entry point sets `camera.capturing_enabled = False`
after construction, without saving. -/
def webOnlyStartup (f : Option (Option Bool)) : Sys :=
  { startupState f with capturing_enabled := false }

/-- Acquisition of the non-reentrant `preview_lock`: a thread that already
holds it blocks forever (`none`). -/
def acquireLock (s : Sys) : Option Sys :=
  if s.lock then none else some { s with lock := true }

/-- Release of `preview_lock` at the end of a `with self.preview_lock:`
block. -/
def releaseLock (s : Sys) : Sys := { s with lock := false }

/-- Body of `TimelapseCamera.start_preview` (run while holding the lock):
remember `was_capturing`; if it was set, clear `capturing_enabled` and
persist the cleared value; reconfigure the camera; set `preview_mode`. -/
def start_preview_body (s : Sys) : Sys :=
  let s1 := if s.capturing_enabled then
              save_service_state { s with capturing_enabled := false }
            else s
  { s1 with preview_mode := true }

/-- `TimelapseCamera.start_preview`: `with self.preview_lock:` around
`start_preview_body`. -/
def start_preview (s : Sys) : Option Sys :=
  (acquireLock s).map fun s1 => releaseLock (start_preview_body s1)

/-- Body of `TimelapseCamera.stop_preview` (run while holding the lock):
clear `preview_mode`, reconfigure the camera, then `load_service_state` to
restore `capturing_enabled` from the file. -/
def stop_preview_body (s : Sys) : Sys :=
  load_service_state { s with preview_mode := false }

/-- `TimelapseCamera.stop_preview`: `with self.preview_lock:` around
`stop_preview_body`. -/
def stop_preview (s : Sys) : Option Sys :=
  (acquireLock s).map fun s1 => releaseLock (stop_preview_body s1)

/-- Name of the photo file written for capture timestamp `t`
(`photo_%Y%m%d_%H%M%S.jpg`, with the timestamp abstracted). -/
def photoFilename (t : Int) : String := "photo_" ++ toString t ++ ".jpg"

/-- The capture proper inside `take_photo`: write the file and update
`last_capture_time` / `last_capture_path`. -/
def captureBody (s : Sys) (t : Int) : Sys :=
  { s with last_capture_time := some t, last_capture_path := some (photoFilename t) }

/-- `TimelapseCamera.take_photo` at timestamp `t`: acquires `preview_lock`;
if `preview_mode` is set it calls `self.stop_preview()` — which tries to
acquire the already-held non-reentrant lock, so the thread blocks forever
(`none`); otherwise it captures and releases the lock. -/
def take_photo (s : Sys) (t : Int) : Option Sys :=
  (acquireLock s).bind fun s1 =>
    if s1.preview_mode then
      (stop_preview s1).bind fun s2 =>
        (start_preview (captureBody s2 t)).map fun s3 => releaseLock s3
    else
      some (releaseLock (captureBody s1 t))

/-- `TimelapseCamera.start_capture`: enable capture and persist. -/
def start_capture (s : Sys) : Sys :=
  save_service_state { s with capturing_enabled := true }

/-- `TimelapseCamera.stop_capture`: disable capture and persist. -/
def stop_capture (s : Sys) : Sys :=
  save_service_state { s with capturing_enabled := false }

/-- Response body of the `/capture/start` route. -/
inductive RouteBody
  | errorBody (msg : String)
  | successBody (capturing : Bool)
deriving DecidableEq, Repr

/-- The `POST /capture/start` Flask route: rejected with HTTP 400 and an
error body while `preview_mode` is set; otherwise calls
`camera.start_capture()` and returns HTTP 200 with a success body. -/
def startCaptureRoute (s : Sys) : Sys × Nat × RouteBody :=
  if s.preview_mode then
    (s, 400, RouteBody.errorBody "Cannot start capture while in preview mode")
  else
    (start_capture s, 200, RouteBody.successBody true)

/-- `tomorrow_start` in `_run_normal_mode`:
`(current_time + timedelta(days=1)).replace(hour=start_time.hour,
minute=start_time.minute, second=0, microsecond=0)`. -/
def tomorrowStart (now windowStart : DT) : DT :=
  (now.addDays 1).replaceHM windowStart.hour windowStart.minute

/-- One decision of `_run_normal_mode`: which branch fires, whether
`take_photo` is called, and the value passed to `time.sleep`.
Mirrors:
`if start_time <= current_time <= end_time and self.capturing_enabled:`
capture then sleep `interval_minutes * 60`;
`elif current_time > end_time:` sleep
`min((tomorrow_start - current_time).total_seconds(), 60)`;
`else:` sleep `min((start_time - current_time).total_seconds(), 60)`.
The code never consults `preview_mode` here. -/
def schedDecision (s : Sys) (now windowStart windowEnd : DT) (intervalMinutes : Int) :
    Bool × Int :=
  if windowStart.toSeconds ≤ now.toSeconds ∧ now.toSeconds ≤ windowEnd.toSeconds ∧
      s.capturing_enabled then
    (true, intervalMinutes * 60)
  else if windowEnd.toSeconds < now.toSeconds then
    (false, min ((tomorrowStart now windowStart).toSeconds - now.toSeconds) 60)
  else
    (false, min (windowStart.toSeconds - now.toSeconds) 60)

/-- Exceptions that can escape an iteration of the scheduler loop. -/
inductive PyErr
  | busError
  | geoError
  | hardwareError
  | valueError
deriving DecidableEq, Repr

/-- The `try: ... except Exception as e: logger.error(...); time.sleep(60)`
wrapper around one iteration of `_run_normal_mode`: a body that raises is
downgraded to "state unchanged, sleep 60 seconds". -/
def loopIterGuard (body : Sys → Except PyErr (Sys × Int)) (s : Sys) : Sys × Int :=
  match body s with
  | Except.ok r => r
  | Except.error _ => (s, 60)

/-- `n` iterations of the `while True` loop of `_run_normal_mode`, with the
`k`-th iteration body given by `body k` (the body may raise anywhere:
status publish, sun-time computation, decision, capture, or sleep).  The
result is `Except`-valued so that a propagating exception would surface as
`Except.error`; the loop has no exit construct, so it only stops when the
iteration budget `n` is exhausted. -/
def runNormalLoop (body : Nat → Sys → Except PyErr (Sys × Int)) :
    Nat → Sys → Except PyErr (Sys × List Int)
  | 0, s => Except.ok (s, [])
  | n + 1, s =>
    let r := loopIterGuard (body n) s
    (runNormalLoop body n r.1).map fun p => (p.1, r.2 :: p.2)

/-- State of the `HomeAssistantMQTT` handler relevant to `publish_state`. -/
structure MQTTState where
  connected : Bool
  deviceName : String
deriving DecidableEq, Repr

/-- Topic used by `publish_state`. -/
def stateTopic (m : MQTTState) (entityType : String) : String :=
  m.deviceName ++ "/state/" ++ entityType

/-- `HomeAssistantMQTT.publish_state`: if not connected, log a warning and
return (no publish attempted, nothing raised); otherwise perform the
message-bus publish `busPublish` (a fallible external call) and record it.
The result lists the publish calls actually performed. -/
def publish_state (busPublish : String → String → Except PyErr Unit)
    (m : MQTTState) (entityType st : String) :
    Except PyErr (MQTTState × List (String × String)) :=
  if m.connected = false then
    Except.ok (m, [])
  else
    (busPublish (stateTopic m entityType) st).map fun _ =>
      (m, [(stateTopic m entityType, st)])

/-- States reachable by the running service: startup (capture and/or web
mode, any on-disk file), followed by any sequence of the state-mutating
operations callable from the HTTP routes, the message-bus handler and the
scheduler.  Lock-blocking operations (`none`) yield no new state. -/
inductive Reachable : Sys → Prop
  | startup (f : Option (Option Bool)) : Reachable (startupState f)
  | webOnly (f : Option (Option Bool)) : Reachable (webOnlyStartup f)
  | startPreviewStep {s t : Sys} : Reachable s → start_preview s = some t → Reachable t
  | stopPreviewStep {s t : Sys} : Reachable s → stop_preview s = some t → Reachable t
  | startCaptureStep {s : Sys} : Reachable s → Reachable (startCaptureRoute s).1
  | stopCaptureStep {s : Sys} : Reachable s → Reachable (stop_capture s)
  | takePhotoStep {s t : Sys} {ts : Int} : Reachable s → take_photo s ts = some t → Reachable t

/-! ### Helper lemmas -/

theorem load_service_state_preview (s : Sys) :
    (load_service_state s).preview_mode = s.preview_mode := by
  unfold load_service_state
  split <;> rfl

theorem start_preview_eq {s : Sys} (h : s.lock = false) :
    start_preview s = some (releaseLock (start_preview_body { s with lock := true })) := by
  simp [start_preview, acquireLock, h]

theorem start_preview_spec {s t : Sys} (h : start_preview s = some t) :
    t.capturing_enabled = false ∧ t.preview_mode = true := by
  unfold start_preview acquireLock at h
  cases hl : s.lock
  · rw [hl] at h
    simp at h
    subst h
    cases he : s.capturing_enabled <;>
      simp [start_preview_body, releaseLock, save_service_state, he]
  · rw [hl] at h
    simp at h

theorem stop_preview_spec {s t : Sys} (h : stop_preview s = some t) :
    t.preview_mode = false := by
  unfold stop_preview acquireLock at h
  cases hl : s.lock
  · rw [hl] at h
    simp at h
    subst h
    show (load_service_state _).preview_mode = false
    rw [load_service_state_preview]
  · rw [hl] at h
    simp at h

theorem take_photo_spec {s t : Sys} {ts : Int} (h : take_photo s ts = some t) :
    s.preview_mode = false ∧ t.preview_mode = false := by
  unfold take_photo acquireLock at h
  cases hl : s.lock
  · rw [hl] at h
    cases hp : s.preview_mode
    · rw [show ({ s with lock := true } : Sys).preview_mode = s.preview_mode from rfl] at h
      rw [hp] at h
      simp at h
      subst h
      exact ⟨rfl, rfl⟩
    · rw [show ({ s with lock := true } : Sys).preview_mode = s.preview_mode from rfl] at h
      rw [hp] at h
      simp [stop_preview, acquireLock] at h
  · rw [hl] at h
    simp at h

theorem startCaptureRoute_preview (s : Sys) :
    (startCaptureRoute s).1.preview_mode = s.preview_mode := by
  unfold startCaptureRoute
  split <;> rfl

/-- Reachability invariant: whenever preview mode is active, the
`capturing_enabled` flag is off (entering preview clears it, and the only
operation that sets it — the `/capture/start` route — refuses while in
preview). -/
theorem reachable_preview_disabled {s : Sys} (h : Reachable s) :
    s.preview_mode = true → s.capturing_enabled = false := by
  induction h with
  | startup f =>
    intro hp
    unfold startupState load_service_state save_service_state at hp
    cases f <;> simp_all
  | webOnly f =>
    intro _
    rfl
  | startPreviewStep _ hstep _ =>
    intro _
    exact (start_preview_spec hstep).1
  | stopPreviewStep _ hstep _ =>
    intro hp
    rw [stop_preview_spec hstep] at hp
    cases hp
  | startCaptureStep hr ih =>
    intro hp
    rename_i s'
    rw [startCaptureRoute_preview] at hp
    unfold startCaptureRoute
    rw [if_pos hp]
    exact ih hp
  | stopCaptureStep _ _ =>
    intro _
    rfl
  | takePhotoStep _ hstep _ =>
    intro hp
    rw [(take_photo_spec hstep).2] at hp
    cases hp

/-! ### Claim theorems -/

/-- C1: the claim says `start_preview` followed by `stop_preview` restores
`capturing_enabled` to its pre-preview value and that entering preview does
not clear the persisted enabled flag.  The code violates both parts: from a
startup state with `capturing_enabled = true` and the file recording `true`,
`start_preview` persists the cleared flag (`save_service_state` after setting
it to `false`), and `stop_preview` restores the flag by re-reading that same
file, so the round trip ends with `capturing_enabled = false`.  This
contradicts the source's own comments ("Temporarily disabling capture for
preview mode", "Restore previous capture state"). -/
theorem C1_preview_roundtrip_clears_enabled :
    (startupState (some (some true))).capturing_enabled = true ∧
    (start_preview (startupState (some (some true)))).map Sys.file =
      some (some (some false)) ∧
    ((start_preview (startupState (some (some true)))).bind stop_preview).map
      Sys.capturing_enabled = some false := by
  decide

/-- C2: the claim says `take_photo` invoked during preview terminates back in
Preview with the last-capture fields updated.  The code instead deadlocks:
`take_photo` holds the non-reentrant `preview_lock` and calls
`self.stop_preview()`, whose own `with self.preview_lock:` blocks the same
thread forever.  Starting from a reachable preview state (startup with the
enabled flag persisted, then `start_preview`), `take_photo` never returns
(modelled as `none`). -/
theorem C2_take_photo_in_preview_deadlocks :
    (start_preview (startupState (some (some true)))).map Sys.preview_mode =
      some true ∧
    ((start_preview (startupState (some (some true)))).bind
      fun s => take_photo s 20250101) = none := by
  decide

/-- C3: `get_sun_times` returns exactly
`(sunrise - hours_before_sunrise, sunset + hours_after_sunset)` (offsets in
hours, timestamps in seconds), and whenever both offsets are non-negative and
sunrise < sunset the window satisfies start < end. -/
theorem C3_compute_window (sunrise sunset hb ha : ℚ) :
    get_sun_times sunrise sunset hb ha = (sunrise - hb * 3600, sunset + ha * 3600) ∧
    (0 ≤ hb → 0 ≤ ha → sunrise < sunset →
      (get_sun_times sunrise sunset hb ha).1 < (get_sun_times sunrise sunset hb ha).2) := by
  refine ⟨rfl, fun h1 h2 h3 => ?_⟩
  have hb3600 : 0 ≤ hb * 3600 := mul_nonneg h1 (by norm_num)
  have ha3600 : 0 ≤ ha * 3600 := mul_nonneg h2 (by norm_num)
  simp only [get_sun_times]
  linarith

/-- Witness for C3 at sunrise 06:00 (21600 s), sunset 20:00 (72000 s),
one hour before sunrise, two hours after sunset. -/
theorem C3_compute_window_witness :
    (0 : ℚ) ≤ 1 ∧ (0 : ℚ) ≤ 2 ∧ (21600 : ℚ) < 72000 ∧
    (get_sun_times 21600 72000 1 2).1 < (get_sun_times 21600 72000 1 2).2 :=
  ⟨by decide, by decide, by decide,
   (C3_compute_window 21600 72000 1 2).2 (by decide) (by decide) (by decide)⟩

/-- C4: in any scheduler iteration with `window.start <= now <= window.end`,
`capturing_enabled` set, and preview not active, the loop takes the capture
branch: it calls `take_photo` and then sleeps `interval_minutes * 60`
seconds.  (The code's condition does not even consult `preview_mode`; the
preview hypothesis is part of the claim.) -/
theorem C4_in_window_captures (s : Sys) (now ws we : DT) (iv : Int)
    (h1 : ws.toSeconds ≤ now.toSeconds) (h2 : now.toSeconds ≤ we.toSeconds)
    (hen : s.capturing_enabled = true) (_hpv : s.preview_mode = false) :
    schedDecision s now ws we iv = (true, iv * 60) := by
  simp [schedDecision, h1, h2, hen]

/-- Witness for C4: window 06:00–20:00, now 10:00, enabled, interval 5
minutes: captures and sleeps 300 seconds. -/
theorem C4_in_window_captures_witness :
    schedDecision
      { capturing_enabled := true, preview_mode := false, file := some (some true),
        last_capture_time := none, last_capture_path := none, lock := false }
      ⟨0, 36000⟩ ⟨0, 21600⟩ ⟨0, 72000⟩ 5 = (true, 300) :=
  (C4_in_window_captures _ _ _ _ 5 (by decide) (by decide) rfl rfl).trans (by decide)

/-- C5: in any scheduler iteration with `now > window.end`, the loop computes
`tomorrow_start` as the next calendar day with today's window-start hour and
minute and zeroed seconds, performs no capture, and sleeps
`min(seconds_until_tomorrow_start, 60)`. -/
theorem C5_after_window (s : Sys) (now ws we : DT) (iv : Int)
    (hwfs : ws.wf) (h : we.toSeconds < now.toSeconds) :
    schedDecision s now ws we iv =
      (false, min ((tomorrowStart now ws).toSeconds - now.toSeconds) 60) ∧
    (tomorrowStart now ws).day = now.day + 1 ∧
    (tomorrowStart now ws).hour = ws.hour ∧
    (tomorrowStart now ws).minute = ws.minute ∧
    (tomorrowStart now ws).second = 0 := by
  obtain ⟨hs0, hs1⟩ := hwfs
  refine ⟨?_, rfl, ?_, ?_, ?_⟩
  · have hn : ¬(ws.toSeconds ≤ now.toSeconds ∧ now.toSeconds ≤ we.toSeconds ∧
        s.capturing_enabled = true) := by
      rintro ⟨-, hle, -⟩
      omega
    simp [schedDecision, hn, h]
  · show ((ws.sod / 3600) * 3600 + ((ws.sod % 3600) / 60) * 60) / 3600 = ws.sod / 3600
    omega
  · show (((ws.sod / 3600) * 3600 + ((ws.sod % 3600) / 60) * 60) % 3600) / 60 =
      (ws.sod % 3600) / 60
    omega
  · show ((ws.sod / 3600) * 3600 + ((ws.sod % 3600) / 60) * 60) % 60 = 0
    omega

/-- Witness for C5: window start 06:30:15 on day 0, now 21:00 on day 0: no
capture, sleep capped at 60 s, tomorrow start is day 1 at 06:30:00. -/
theorem C5_after_window_witness :
    schedDecision
      { capturing_enabled := true, preview_mode := false, file := some (some true),
        last_capture_time := none, last_capture_path := none, lock := false }
      ⟨0, 75600⟩ ⟨0, 23415⟩ ⟨0, 72000⟩ 5 =
      (false, min ((tomorrowStart ⟨0, 75600⟩ ⟨0, 23415⟩).toSeconds - 75600) 60) ∧
    (tomorrowStart ⟨0, 75600⟩ ⟨0, 23415⟩).day = 1 ∧
    (tomorrowStart ⟨0, 75600⟩ ⟨0, 23415⟩).hour = 6 ∧
    (tomorrowStart ⟨0, 75600⟩ ⟨0, 23415⟩).minute = 30 ∧
    (tomorrowStart ⟨0, 75600⟩ ⟨0, 23415⟩).second = 0 := by
  have h := C5_after_window
    { capturing_enabled := true, preview_mode := false, file := some (some true),
      last_capture_time := none, last_capture_path := none, lock := false }
    ⟨0, 75600⟩ ⟨0, 23415⟩ ⟨0, 72000⟩ 5 (by constructor <;> decide) (by decide)
  refine ⟨h.1, ?_, ?_, ?_, ?_⟩
  · exact h.2.1.trans (by decide)
  · exact h.2.2.1.trans (by decide)
  · exact h.2.2.2.1.trans (by decide)
  · exact h.2.2.2.2

/-- C6: in any reachable state, a scheduler iteration falling into the
remaining case (`now < window.start`, or capture disabled, or preview
active — with `now` not past the window end, which would take the
tomorrow branch) performs no capture and passes
`min(seconds_until_window_start, 60)` to `time.sleep`.  The code's condition
never reads `preview_mode`; the preview disjunct is covered because in every
reachable state preview mode entails a cleared `capturing_enabled`
(`reachable_preview_disabled`). -/
theorem C6_remaining_case_sleeps {s : Sys} (hr : Reachable s) (now ws we : DT)
    (iv : Int) (hle : now.toSeconds ≤ we.toSeconds)
    (hcase : now.toSeconds < ws.toSeconds ∨ s.capturing_enabled = false ∨
      s.preview_mode = true) :
    schedDecision s now ws we iv = (false, min (ws.toSeconds - now.toSeconds) 60) := by
  have hn1 : ¬(ws.toSeconds ≤ now.toSeconds ∧ now.toSeconds ≤ we.toSeconds ∧
      s.capturing_enabled = true) := by
    rintro ⟨hge, -, hen⟩
    rcases hcase with hlt | hdis | hpv
    · omega
    · rw [hen] at hdis
      cases hdis
    · rw [reachable_preview_disabled hr hpv] at hen
      cases hen
  have hn2 : ¬(we.toSeconds < now.toSeconds) := by omega
  simp [schedDecision, hn1, hn2]

/-- Witness for C6: the reachable state obtained by starting with no state
file and disabling capture, at now 10:00 inside the 06:00–20:00 window:
no capture, and the sleep argument is `min(21600 - 36000, 60) = -14400`. -/
theorem C6_remaining_case_sleeps_witness :
    schedDecision (stop_capture (startupState none)) ⟨0, 36000⟩ ⟨0, 21600⟩ ⟨0, 72000⟩ 5 =
      (false, -14400) :=
  (C6_remaining_case_sleeps
    (Reachable.stopCaptureStep (Reachable.startup none))
    ⟨0, 36000⟩ ⟨0, 21600⟩ ⟨0, 72000⟩ 5 (by decide)
    (Or.inr (Or.inl (by decide)))).trans (by decide)

/-- C7: the `while True` loop of `_run_normal_mode` wraps every iteration in
`try/except`: whatever exception the iteration body raises, the handler logs,
sleeps 60 seconds with the state unchanged, and the loop resumes.  Over any
number `n` of iterations and any iteration bodies (which may raise at any
step), the loop yields `Except.ok` — no exception propagates — and performs
exactly `n` iterations, never terminating early. -/
theorem C7_loop_never_propagates
    (body : Nat → Sys → Except PyErr (Sys × Int)) (n : Nat) (s : Sys) :
    (∃ r : Sys × List Int, runNormalLoop body n s = Except.ok r ∧ r.2.length = n) ∧
    (∀ k e, body k s = Except.error e → loopIterGuard (body k) s = (s, 60)) := by
  have key : ∀ (m : Nat) (st : Sys), ∃ r : Sys × List Int,
      runNormalLoop body m st = Except.ok r ∧ r.2.length = m := by
    intro m
    induction m with
    | zero => exact fun st => ⟨(st, []), rfl, rfl⟩
    | succ k ih =>
      intro st
      obtain ⟨r, hr, hlen⟩ := ih (loopIterGuard (body k) st).1
      refine ⟨(r.1, (loopIterGuard (body k) st).2 :: r.2), ?_, ?_⟩
      · show (runNormalLoop body k (loopIterGuard (body k) st).1).map _ = _
        rw [hr]
        rfl
      · simp [hlen]
  exact ⟨key n s, fun k e he => by simp [loopIterGuard, he]⟩

/-- Witness for C7: a body that raises a bus error on every iteration still
gives three completed iterations with `Except.ok`, and the guard turns the
raising iteration into a 60-second sleep with the state unchanged. -/
theorem C7_loop_never_propagates_witness :
    (∃ r : Sys × List Int,
      runNormalLoop (fun _ _ => Except.error PyErr.busError) 3 (startupState none) =
        Except.ok r ∧ r.2.length = 3) ∧
    loopIterGuard
      ((fun _ _ => Except.error PyErr.busError : Nat → Sys → Except PyErr (Sys × Int)) 0)
      (startupState none) = (startupState none, 60) :=
  ⟨(C7_loop_never_propagates (fun _ _ => Except.error PyErr.busError) 3
      (startupState none)).1,
   (C7_loop_never_propagates (fun _ _ => Except.error PyErr.busError) 3
      (startupState none)).2 0 PyErr.busError rfl⟩

/-- C8: `publish_state` on a disconnected handler logs the skip and returns:
nothing is raised (the result is `Except.ok`), no publish call is performed
(the performed-call list is empty), and the handler state is unchanged —
even if the underlying bus publish would have raised. -/
theorem C8_publish_skipped_when_disconnected
    (busPublish : String → String → Except PyErr Unit) (m : MQTTState)
    (entityType st : String) (h : m.connected = false) :
    publish_state busPublish m entityType st = Except.ok (m, []) := by
  simp [publish_state, h]

/-- Witness for C8: a disconnected handler with a bus that would raise. -/
theorem C8_publish_skipped_when_disconnected_witness :
    publish_state (fun _ _ => Except.error PyErr.busError)
      { connected := false, deviceName := "timelapse_camera" } "uptime" "5" =
      Except.ok ({ connected := false, deviceName := "timelapse_camera" }, []) :=
  C8_publish_skipped_when_disconnected _ _ _ _ rfl

/-- C9: the `POST /capture/start` route returns HTTP 400 with an error body
and leaves the whole controller state (including `capturing_enabled` and the
persisted file) unchanged while preview mode is active; otherwise it enables
capture, persists the enabled flag, and returns HTTP 200 with a success
body. -/
theorem C9_capture_start_route_guard (s : Sys) :
    (s.preview_mode = true →
      startCaptureRoute s =
        (s, 400, RouteBody.errorBody "Cannot start capture while in preview mode")) ∧
    (s.preview_mode = false →
      (startCaptureRoute s).2.1 = 200 ∧
      (startCaptureRoute s).1.capturing_enabled = true ∧
      (startCaptureRoute s).1.file = some (some true) ∧
      (startCaptureRoute s).2.2 = RouteBody.successBody true) := by
  constructor
  · intro hp
    simp [startCaptureRoute, hp]
  · intro hp
    simp [startCaptureRoute, hp, start_capture, save_service_state]

/-- Witness for C9: one preview-active state (request rejected, state
untouched) and one idle state (capture enabled and persisted). -/
theorem C9_capture_start_route_guard_witness :
    startCaptureRoute
      { capturing_enabled := false, preview_mode := true, file := some (some false),
        last_capture_time := none, last_capture_path := none, lock := false } =
      ({ capturing_enabled := false, preview_mode := true, file := some (some false),
         last_capture_time := none, last_capture_path := none, lock := false },
        400, RouteBody.errorBody "Cannot start capture while in preview mode") ∧
    (startCaptureRoute
      { capturing_enabled := false, preview_mode := false, file := some (some false),
        last_capture_time := none, last_capture_path := none, lock := false }).1.capturing_enabled =
      true ∧
    (startCaptureRoute
      { capturing_enabled := false, preview_mode := false, file := some (some false),
        last_capture_time := none, last_capture_path := none, lock := false }).2.1 = 200 :=
  ⟨(C9_capture_start_route_guard _).1 rfl,
   ((C9_capture_start_route_guard _).2 rfl).2.1,
   ((C9_capture_start_route_guard _).2 rfl).1⟩

/-- C10: with no persisted state file, startup leaves `capturing_enabled` at
its default `true` and immediately writes a file recording that default, so a
subsequent restart reading that file again yields `true`; a file that exists
but lacks the `capturing_enabled` key also yields the default `true`. -/
theorem C10_default_service_state :
    (startupState none).capturing_enabled = true ∧
    (startupState none).file = some (some true) ∧
    (startupState ((startupState none).file)).capturing_enabled = true ∧
    (startupState (some none)).capturing_enabled = true := by
  decide

end Timelapse
